import Mathlib

/-!
Shallow embedding of the balance-computation core of the budget_api
repository (file src/api_service/models.py).

Database rows become Lean structures; the Django ORM queries used by the
balance methods (Transaction.objects.filter(wallet=self,
category__type=...), .aggregate(total=Sum("amount"))["total"] or
Decimal("0.00"), and the foreign-key dereferences
self.currency.value_in_usd and transaction.category.type) become list
filters, list sums and find? lookups over an explicit in-memory database
DB.  Decimal amounts are embedded as exact rationals ℚ (Decimal
addition, subtraction and multiplication are exact at these precisions).
DateTime, image and audit-timestamp columns are never read by the
balance code and are omitted from the row structures.
-/

namespace BudgetApi

/-- Row of the Currency model: name, code, symbol, country (ISO code)
and value_in_usd (DecimalField, 3 fractional digits), embedded as ℚ. -/
structure Currency where
  id : Nat
  name : String
  code : String
  symbol : String
  country : String
  value_in_usd : ℚ
deriving DecidableEq, Repr

/-- Row of the Category model: owned by a user, with a type CharField
whose choices are the strings "INCOME" and "EXPENSE". -/
structure Category where
  id : Nat
  userId : Nat
  name : String
  type : String
  color : String
deriving DecidableEq, Repr

/-- Row of the User model (AbstractUser): only the columns read by the
balance code plus the legacy scalar initial_balance (DecimalField, 2
fractional digits) are embedded. -/
structure User where
  id : Nat
  first_name : String
  last_name : String
  initial_balance : ℚ
deriving DecidableEq, Repr

/-- Row of the Wallet model: foreign keys currency (declared with
unique=True and on_delete=RESTRICT) and user, plus current_balance and
initial_balance (DecimalFields, 8 fractional digits). -/
structure Wallet where
  id : Nat
  currencyId : Nat
  userId : Nat
  current_balance : ℚ
  initial_balance : ℚ
deriving DecidableEq, Repr

/-- Row of the Transaction model: foreign keys user, category, wallet;
amount is a DecimalField with 2 fractional digits. -/
structure Transaction where
  id : Nat
  userId : Nat
  categoryId : Nat
  title : String
  description : String
  amount : ℚ
  walletId : Nat
deriving DecidableEq, Repr

/-- The in-memory database: the tables consulted by the balance
methods. -/
structure DB where
  users : List User
  categories : List Category
  currencies : List Currency
  wallets : List Wallet
  transactions : List Transaction
deriving DecidableEq, Repr

/-- Foreign-key dereference transaction.category: the row of the
category table whose primary key is cid. -/
def findCategory (cats : List Category) (cid : Nat) : Option Category :=
  cats.find? (fun c => c.id == cid)

/-- Foreign-key dereference wallet.currency: the row of the currency
table whose primary key is cid. -/
def findCurrency (curs : List Currency) (cid : Nat) : Option Currency :=
  curs.find? (fun c => c.id == cid)

/-- The ORM filter Transaction.objects.filter(wallet=self,
category__type=ty): a transaction matches when its wallet foreign key
equals wid and the join through its category foreign key yields a
category whose type equals ty (a dangling foreign key joins no
category row, hence matches nothing). -/
def matchesWalletAndType (cats : List Category) (wid : Nat) (ty : String)
    (t : Transaction) : Bool :=
  t.walletId == wid &&
    match findCategory cats t.categoryId with
    | some c => c.type == ty
    | none => false

/-- The aggregate .aggregate(total=Sum("amount"))["total"] or
Decimal("0.00"): the SQL Sum of the amount column over the filtered
rows, with the None produced by an empty row set coerced to 0 (which
is exactly List.sum of the empty list). -/
def sumAmounts (ts : List Transaction) : ℚ :=
  (ts.map Transaction.amount).sum

/-- Wallet.get_total_balance exactly as the source writes it:

    income   = filter(wallet=self, category__type="INCOME") ... or 0
    expenses = filter(wallet=self, category__type="INCOME") ... or 0
    return self.initial_balance + income - expenses

The expenses query in the source filters category__type="INCOME" (not
"EXPENSE"); the embedding keeps that filter verbatim. -/
def Wallet.get_total_balance (db : DB) (w : Wallet) : ℚ :=
  let income :=
    sumAmounts (db.transactions.filter (matchesWalletAndType db.categories w.id "INCOME"))
  let expenses :=
    sumAmounts (db.transactions.filter (matchesWalletAndType db.categories w.id "INCOME"))
  w.initial_balance + income - expenses

/-- The dereference self.currency.value_in_usd.  Under the referential
integrity of the model (on_delete=RESTRICT) the foreign key always
resolves; a dangling key is mapped to rate 0. -/
def Wallet.currencyRate (db : DB) (w : Wallet) : ℚ :=
  match findCurrency db.currencies w.currencyId with
  | some c => c.value_in_usd
  | none => 0

/-- Wallet.get_wallet_balance_in_usd:
balance = self.get_total_balance() * self.currency.value_in_usd
(the three print statements of the source are console output only and
carry no semantics). -/
def Wallet.get_wallet_balance_in_usd (db : DB) (w : Wallet) : ℚ :=
  Wallet.get_total_balance db w * Wallet.currencyRate db w

/-- User.get_total_wallets_balance_in_usd: starts from
total_value_in_usd = 0 and, for each wallet in
Wallet.objects.filter(user=self), accumulates
cur.get_total_balance() * cur.currency.value_in_usd
(the fetch Currency.objects.all() in the source binds a variable that
is never read). -/
def User.get_total_wallets_balance_in_usd (db : DB) (u : User) : ℚ :=
  (db.wallets.filter (fun w => w.userId == u.id)).foldl
    (fun acc w => acc + Wallet.get_total_balance db w * Wallet.currencyRate db w) 0

/-- The total-balance formula as section 4.1 of the specification
states it: initial_balance plus the amounts summed where
category.type=INCOME minus the amounts summed where
category.type=EXPENSE, written over the same embedded queries but with
the expenses filter on "EXPENSE". -/
def spec_total_balance (db : DB) (w : Wallet) : ℚ :=
  w.initial_balance
    + sumAmounts (db.transactions.filter (matchesWalletAndType db.categories w.id "INCOME"))
    - sumAmounts (db.transactions.filter (matchesWalletAndType db.categories w.id "EXPENSE"))

/-- Section 4.2 contract of the Account Aggregator as the
specification states it: the sum of balance_in_usd across all wallets
of the user. -/
def compute_account_total_usd (db : DB) (u : User) : ℚ :=
  ((db.wallets.filter (fun w => w.userId == u.id)).map
    (Wallet.get_wallet_balance_in_usd db)).sum

/-- The uniqueness constraint the model declares on the wallet table:
currency = models.ForeignKey(Currency, on_delete=models.RESTRICT,
unique=True) puts a unique constraint on the currency_id column, so a
wallet store is admissible only when no two wallet rows reference the
same currency. -/
def walletCurrencyUnique (ws : List Wallet) : Prop :=
  (ws.map Wallet.currencyId).Nodup

instance (ws : List Wallet) : Decidable (walletCurrencyUnique ws) :=
  inferInstanceAs (Decidable (List.Nodup _))

/-! Concrete rows used by the closed instances below. -/

/-- Example user (primary key 1). -/
def userAlice : User :=
  { id := 1, first_name := "Alice", last_name := "A", initial_balance := 0 }

/-- Example user (primary key 2). -/
def userBob : User :=
  { id := 2, first_name := "Bob", last_name := "B", initial_balance := 7 }

/-- Example category of type INCOME. -/
def catIncome : Category :=
  { id := 1, userId := 1, name := "Salary", type := "INCOME", color := "#000" }

/-- Example category of type EXPENSE. -/
def catExpense : Category :=
  { id := 2, userId := 1, name := "Food", type := "EXPENSE", color := "#000" }

/-- Example currency with rate 1.000 (primary key 1). -/
def curUSD : Currency :=
  { id := 1, name := "Dollar", code := "USD", symbol := "$", country := "USA",
    value_in_usd := 1 }

/-- Example currency with rate 2.000 (primary key 2). -/
def curEUR : Currency :=
  { id := 2, name := "Euro", code := "EUR", symbol := "E", country := "DEU",
    value_in_usd := 2 }

/-- Example currency with rate 5.000 (primary key 3). -/
def curBRL : Currency :=
  { id := 3, name := "Real", code := "BRL", symbol := "R$", country := "BRA",
    value_in_usd := 5 }

/-- Example currency with rate 0.000 (primary key 4). -/
def curZero : Currency :=
  { id := 4, name := "Zero", code := "ZRO", symbol := "Z", country := "ZZZ",
    value_in_usd := 0 }

/-- Wallet for the C1 instance: initial balance 0. -/
def wC1 : Wallet :=
  { id := 1, currencyId := 3, userId := 1, current_balance := 0, initial_balance := 0 }

/-- An EXPENSE transaction of amount 5.00 on wallet 1. -/
def tC1 : Transaction :=
  { id := 1, userId := 1, categoryId := 2, title := "t", description := "d",
    amount := 5, walletId := 1 }

/-- Database for the C1 instance: one wallet, one EXPENSE transaction. -/
def dbC1 : DB :=
  { users := [userAlice], categories := [catIncome, catExpense],
    currencies := [curBRL], wallets := [wC1], transactions := [tC1] }

/-- Wallet for the C2 instance: initial balance 0, primary key 2. -/
def wC2 : Wallet :=
  { id := 2, currencyId := 3, userId := 1, current_balance := 0, initial_balance := 0 }

/-- An INCOME transaction of amount 5.00 on wallet 2. -/
def tC2 : Transaction :=
  { id := 2, userId := 1, categoryId := 1, title := "t", description := "d",
    amount := 5, walletId := 2 }

/-- Database for the C2 instance before the insertion: no transactions. -/
def dbC2 : DB :=
  { users := [userAlice], categories := [catIncome, catExpense],
    currencies := [curBRL], wallets := [wC2], transactions := [] }

/-- Database for the C2 instance after inserting one INCOME transaction
of amount 5.00 on wallet 2. -/
def dbC2after : DB :=
  { dbC2 with transactions := [tC2] }

/-- Wallet W1 of the C3 scenario: balance 100, currency rate 1.0. -/
def wC3a : Wallet :=
  { id := 3, currencyId := 1, userId := 1, current_balance := 0, initial_balance := 100 }

/-- Wallet W2 of the C3 scenario: balance 50, currency rate 2.0. -/
def wC3b : Wallet :=
  { id := 4, currencyId := 2, userId := 1, current_balance := 0, initial_balance := 50 }

/-- A wallet of a different user, present so the per-user filter of the
aggregator is exercised. -/
def wBob : Wallet :=
  { id := 5, currencyId := 3, userId := 2, current_balance := 0, initial_balance := 1000 }

/-- Database for the C3 scenario: user 1 owns W1 and W2, user 2 owns
another wallet, no transactions. -/
def dbC3 : DB :=
  { users := [userAlice, userBob], categories := [catIncome, catExpense],
    currencies := [curUSD, curEUR, curBRL], wallets := [wC3a, wC3b, wBob],
    transactions := [] }

/-- Database where user 1 owns no wallet at all (user 2 still owns
one). -/
def dbC3empty : DB :=
  { dbC3 with wallets := [wBob] }

/-- Wallet of the C4 scenario: initial_balance 10.00000000, currency
rate 5.000. -/
def wC4 : Wallet :=
  { id := 6, currencyId := 3, userId := 1, current_balance := 0, initial_balance := 10 }

/-- The INCOME transaction of 3.00 of the C4 scenario. -/
def tC4i : Transaction :=
  { id := 3, userId := 1, categoryId := 1, title := "i", description := "d",
    amount := 3, walletId := 6 }

/-- The EXPENSE transaction of 1.50 of the C4 scenario. -/
def tC4e : Transaction :=
  { id := 4, userId := 1, categoryId := 2, title := "e", description := "d",
    amount := 3/2, walletId := 6 }

/-- Database of the C4 scenario. -/
def dbC4 : DB :=
  { users := [userAlice], categories := [catIncome, catExpense],
    currencies := [curBRL], wallets := [wC4], transactions := [tC4i, tC4e] }

/-- Wallet for the C5 witness: initial balance 4, currency rate 5. -/
def wC5 : Wallet :=
  { id := 7, currencyId := 3, userId := 1, current_balance := 0, initial_balance := 4 }

/-- Database for the C5 witness: wallet 7 has zero transactions (the
only stored transaction references wallet 1). -/
def dbC5 : DB :=
  { users := [userAlice], categories := [catIncome, catExpense],
    currencies := [curBRL], wallets := [wC5], transactions := [tC1] }

/-- First wallet of the C6 counterexample: references currency 3. -/
def wC6a : Wallet :=
  { id := 8, currencyId := 3, userId := 1, current_balance := 0, initial_balance := 0 }

/-- Second wallet of the C6 counterexample: a different wallet (of a
different user) referencing the same currency 3. -/
def wC6b : Wallet :=
  { id := 9, currencyId := 3, userId := 2, current_balance := 0, initial_balance := 0 }

/-- A wallet referencing currency 1, used in the C6 witness store. -/
def wC6c : Wallet :=
  { id := 10, currencyId := 1, userId := 1, current_balance := 0, initial_balance := 0 }

/-- Wallet for the C7 witness: references the rate-zero currency. -/
def wC7 : Wallet :=
  { id := 11, currencyId := 4, userId := 1, current_balance := 0, initial_balance := 9 }

/-- Database for the C7 witness: empty transaction table, empty wallet
table, and a rate-zero currency on file. -/
def dbC7 : DB :=
  { users := [userAlice], categories := [catIncome, catExpense],
    currencies := [curZero], wallets := [], transactions := [] }

/-- A transaction on wallet 1, used in the C8 witness. -/
def tC8a : Transaction :=
  { id := 5, userId := 1, categoryId := 1, title := "a", description := "d",
    amount := 2, walletId := 1 }

/-- A transaction on a different wallet (wallet 2), used in the C8
witness. -/
def tC8b : Transaction :=
  { id := 6, userId := 2, categoryId := 2, title := "b", description := "d",
    amount := 11, walletId := 2 }

/-! Helper lemmas shared by the claim theorems. -/

/-- Because both aggregates of Wallet.get_total_balance filter
category__type="INCOME", the income and expenses summands coincide and
the method returns initial_balance on every database. -/
theorem get_total_balance_eq_initial (db : DB) (w : Wallet) :
    Wallet.get_total_balance db w = w.initial_balance := by
  simp [Wallet.get_total_balance]

/-- A left fold that adds f of each element equals the starting value
plus the sum of the mapped list. -/
theorem foldl_add_eq_sum (f : Wallet → ℚ) (l : List Wallet) (a : ℚ) :
    l.foldl (fun acc w => acc + f w) a = a + (l.map f).sum := by
  induction l generalizing a with
  | nil => simp
  | cons x xs ih => simp [ih, add_assoc]

/-- Filtering with a conjunction of two boolean predicates equals
filtering with one and then the other. -/
theorem filter_and_filter (base q : Transaction → Bool) (l : List Transaction) :
    l.filter (fun t => base t && q t) = (l.filter base).filter q := by
  induction l with
  | nil => rfl
  | cons x xs ih =>
    by_cases hb : base x <;> by_cases hq : q x <;>
      simp [List.filter_cons, hb, hq, ih]

/-- The wallet-and-type ORM filter factors through the plain
wallet-only filter. -/
theorem filter_matches_factor (cats : List Category) (wid : Nat) (ty : String)
    (ts : List Transaction) :
    ts.filter (matchesWalletAndType cats wid ty) =
      (ts.filter (fun t => t.walletId == wid)).filter
        (fun t => match findCategory cats t.categoryId with
                  | some c => c.type == ty
                  | none => false) := by
  rw [← filter_and_filter]
  rfl

/-! Claim theorems. -/

/-- Claim C1.  The claim states that Wallet.get_total_balance equals
initial_balance plus the INCOME amounts minus the EXPENSE amounts.  The
code contradicts this: its expenses aggregate filters
category__type="INCOME" (a copy-paste slip the specification itself
flags in section 9), so the method returns initial_balance on every
input.  Evaluated at a wallet with initial balance 0 carrying a single
EXPENSE transaction of amount 5.00, the code returns 0 while the
stated formula gives -5. -/
theorem C1_expense_filter_bug :
    Wallet.get_total_balance dbC1 wC1 = 0 ∧ spec_total_balance dbC1 wC1 = -5 := by
  constructor
  · rw [get_total_balance_eq_initial]; rfl
  · simp [spec_total_balance, dbC1, wC1, tC1, catIncome, catExpense, sumAmounts,
      matchesWalletAndType, findCategory]

/-- Claim C2.  The claim states that inserting an INCOME transaction of
amount a raises Wallet.get_total_balance by exactly a (and an EXPENSE
one lowers it by a).  The code contradicts this: because both
aggregates use the INCOME filter, the two sums stay equal and the
balance never moves.  Evaluated at a wallet with initial balance 0
before and after inserting an INCOME transaction of amount 5.00, the
balance is unchanged instead of rising by 5. -/
theorem C2_income_insertion_no_effect :
    Wallet.get_total_balance dbC2after wC2 = Wallet.get_total_balance dbC2 wC2 ∧
      Wallet.get_total_balance dbC2after wC2 ≠ Wallet.get_total_balance dbC2 wC2 + 5 := by
  rw [get_total_balance_eq_initial, get_total_balance_eq_initial]
  norm_num [wC2]

/-- Claim C3.  User.get_total_wallets_balance_in_usd equals the sum of
balance_in_usd over the wallets of the user (the section 4.2 contract
compute_account_total_usd); a user with zero wallets yields exactly 0;
a user with wallets W1 (balance 100, rate 1.0) and W2 (balance 50,
rate 2.0) yields 200. -/
theorem C3_account_aggregator :
    (∀ (db : DB) (u : User),
        User.get_total_wallets_balance_in_usd db u = compute_account_total_usd db u)
    ∧ User.get_total_wallets_balance_in_usd dbC3empty userAlice = 0
    ∧ User.get_total_wallets_balance_in_usd dbC3 userAlice = 200 := by
  refine ⟨?_, ?_, ?_⟩
  · intro db u
    simp [User.get_total_wallets_balance_in_usd, compute_account_total_usd,
      foldl_add_eq_sum]
    rfl
  · simp [User.get_total_wallets_balance_in_usd, dbC3empty, dbC3, wBob, userAlice]
  · simp [User.get_total_wallets_balance_in_usd, dbC3, wC3a, wC3b, wBob, userAlice,
      Wallet.currencyRate, findCurrency, curUSD, curEUR, curBRL,
      get_total_balance_eq_initial]
    norm_num

/-- Claim C4.  The claim conjoins the relation balance_in_usd =
total_balance times value_in_usd (which the code does satisfy) with a
concrete scenario: initial balance 10.00000000, rate 5.000, one INCOME
transaction of 3.00 and one EXPENSE transaction of 1.50 should give
total_balance 11.50000000 and balance_in_usd 57.50000000.  The code
contradicts the scenario: with the expenses aggregate filtering
INCOME it returns total_balance 10 and balance_in_usd 50, while the
section 4.1 formula gives 23/2 = 11.5 and 115/2 = 57.5. -/
theorem C4_scenario_divergence :
    Wallet.get_total_balance dbC4 wC4 = 10 ∧
      Wallet.get_wallet_balance_in_usd dbC4 wC4 = 50 ∧
      spec_total_balance dbC4 wC4 = 23/2 ∧
      spec_total_balance dbC4 wC4 * Wallet.currencyRate dbC4 wC4 = 115/2 := by
  refine ⟨?_, ?_, ?_, ?_⟩
  · rw [get_total_balance_eq_initial]; rfl
  · simp [Wallet.get_wallet_balance_in_usd, get_total_balance_eq_initial,
      Wallet.currencyRate, findCurrency, dbC4, wC4, curBRL]
    norm_num
  · simp [spec_total_balance, dbC4, wC4, tC4i, tC4e, catIncome, catExpense,
      sumAmounts, matchesWalletAndType, findCategory]
    norm_num
  · simp [spec_total_balance, dbC4, wC4, tC4i, tC4e, catIncome, catExpense,
      sumAmounts, matchesWalletAndType, findCategory, Wallet.currencyRate,
      findCurrency, curBRL]
    norm_num

/-- Claim C5.  For every wallet with zero transactions referencing it,
Wallet.get_total_balance returns exactly initial_balance and
Wallet.get_wallet_balance_in_usd returns exactly initial_balance times
the value_in_usd of the resolved currency. -/
theorem C5_zero_transactions (db : DB) (w : Wallet) (c : Currency)
    (ht : db.transactions.filter (fun t => t.walletId == w.id) = [])
    (hc : findCurrency db.currencies w.currencyId = some c) :
    Wallet.get_total_balance db w = w.initial_balance ∧
      Wallet.get_wallet_balance_in_usd db w = w.initial_balance * c.value_in_usd := by
  refine ⟨get_total_balance_eq_initial db w, ?_⟩
  simp [Wallet.get_wallet_balance_in_usd, get_total_balance_eq_initial,
    Wallet.currencyRate, hc]

/-- Witness for C5: a wallet with initial balance 4 and rate-5 currency
whose transaction table holds no row for it. -/
theorem C5_witness :
    (dbC5.transactions.filter (fun t => t.walletId == wC5.id) = [] ∧
      findCurrency dbC5.currencies wC5.currencyId = some curBRL) ∧
    (Wallet.get_total_balance dbC5 wC5 = wC5.initial_balance ∧
      Wallet.get_wallet_balance_in_usd dbC5 wC5 =
        wC5.initial_balance * curBRL.value_in_usd) :=
  ⟨⟨rfl, rfl⟩, C5_zero_transactions dbC5 wC5 curBRL rfl rfl⟩

/-- Counterexample to claim C6.  The claim states that the data model
permits several wallets referencing the same currency.  It does not:
the unique=True declaration on the currency foreign key rejects the
two-wallet store in which wallets 8 and 9 (owned by different users)
both reference currency 3. -/
theorem C6_counterexample : ¬ walletCurrencyUnique [wC6a, wC6b] := by
  decide

/-- Claim C6, amended.  Per-user wallet-per-currency uniqueness is
indeed only a TODO comment, but the model is not permissive: the
unique=True declaration on the currency foreign key enforces global
uniqueness, so in any admissible wallet store two distinct wallet rows
(of the same user or of different users) always reference distinct
currencies. -/
theorem C6_currency_globally_unique (ws : List Wallet)
    (h : walletCurrencyUnique ws) (i j : Nat)
    (hi : i < ws.length) (hj : j < ws.length) (hij : i ≠ j) :
    (ws.get ⟨i, hi⟩).currencyId ≠ (ws.get ⟨j, hj⟩).currencyId := by
  intro hEq
  apply hij
  have hmap : (ws.map Wallet.currencyId).Nodup := h
  have hi2 : i < (ws.map Wallet.currencyId).length := by simpa using hi
  have hj2 : j < (ws.map Wallet.currencyId).length := by simpa using hj
  have e1 : (ws.map Wallet.currencyId).get ⟨i, hi2⟩ = (ws.get ⟨i, hi⟩).currencyId := by
    simp
  have e2 : (ws.map Wallet.currencyId).get ⟨j, hj2⟩ = (ws.get ⟨j, hj⟩).currencyId := by
    simp
  have h3 : (⟨i, hi2⟩ : Fin (ws.map Wallet.currencyId).length) = ⟨j, hj2⟩ := by
    apply List.Nodup.get_inj_iff hmap |>.mp
    rw [e1, e2, hEq]
  simpa using congrArg Fin.val h3

/-- Witness for the amended C6: an admissible two-wallet store whose
rows reference currencies 3 and 1, necessarily distinct. -/
theorem C6_witness :
    walletCurrencyUnique [wC6a, wC6c] ∧
      (([wC6a, wC6c].get ⟨0, by decide⟩).currencyId ≠
        ([wC6a, wC6c].get ⟨1, by decide⟩).currencyId) :=
  ⟨by decide,
    C6_currency_globally_unique [wC6a, wC6c] (by decide) 0 1
      (by decide) (by decide) (by decide)⟩

/-- Claim C7.  The balance-computation functions are total Lean
functions by construction (they are plain list folds with no failure
path); the empty aggregate is coerced to zero, so an empty transaction
table yields initial_balance; a currency with value_in_usd = 0 is safe
because the engine only multiplies, yielding the well-defined value 0;
and the aggregator of a wallet-less user returns 0. -/
theorem C7_total_no_failure :
    (∀ (db : DB) (w : Wallet), db.transactions = [] →
        Wallet.get_total_balance db w = w.initial_balance)
    ∧ (∀ (db : DB) (w : Wallet) (c : Currency),
        findCurrency db.currencies w.currencyId = some c → c.value_in_usd = 0 →
          Wallet.get_wallet_balance_in_usd db w = 0)
    ∧ (∀ (db : DB) (u : User), db.wallets = [] →
        User.get_total_wallets_balance_in_usd db u = 0) := by
  refine ⟨?_, ?_, ?_⟩
  · intro db w _
    exact get_total_balance_eq_initial db w
  · intro db w c hc h0
    simp [Wallet.get_wallet_balance_in_usd, Wallet.currencyRate, hc, h0]
  · intro db u h
    simp [User.get_total_wallets_balance_in_usd, h]

/-- Witness for C7: a database with empty transaction and wallet
tables and a rate-zero currency on file. -/
theorem C7_witness :
    Wallet.get_total_balance dbC7 wC7 = wC7.initial_balance ∧
      Wallet.get_wallet_balance_in_usd dbC7 wC7 = 0 ∧
      User.get_total_wallets_balance_in_usd dbC7 userAlice = 0 :=
  ⟨C7_total_no_failure.1 dbC7 wC7 rfl,
    C7_total_no_failure.2.1 dbC7 wC7 curZero rfl rfl,
    C7_total_no_failure.2.2 dbC7 userAlice rfl⟩

/-- Claim C8.  Wallet.get_total_balance reads nothing about foreign
transactions: whenever two transaction stores agree on the rows whose
wallet foreign key equals the id of w (and may differ arbitrarily
elsewhere), the computed balance is identical. -/
theorem C8_balance_local (db : DB) (ts1 ts2 : List Transaction) (w : Wallet)
    (h : ts1.filter (fun t => t.walletId == w.id) =
         ts2.filter (fun t => t.walletId == w.id)) :
    Wallet.get_total_balance { db with transactions := ts1 } w =
      Wallet.get_total_balance { db with transactions := ts2 } w := by
  have key : ∀ ty : String,
      ts1.filter (matchesWalletAndType db.categories w.id ty) =
        ts2.filter (matchesWalletAndType db.categories w.id ty) := by
    intro ty
    rw [filter_matches_factor, filter_matches_factor, h]
  simp only [Wallet.get_total_balance]
  rw [key]

/-- Witness for C8: two stores agreeing on the rows of wallet 1, the
second holding an extra row for wallet 2. -/
theorem C8_witness :
    ([tC8a].filter (fun t => t.walletId == wC1.id) =
      [tC8a, tC8b].filter (fun t => t.walletId == wC1.id)) ∧
    Wallet.get_total_balance { dbC1 with transactions := [tC8a] } wC1 =
      Wallet.get_total_balance { dbC1 with transactions := [tC8a, tC8b] } wC1 :=
  ⟨rfl, C8_balance_local dbC1 [tC8a] [tC8a, tC8b] wC1 rfl⟩

/-- Claim C9.  The inline aggregation of
User.get_total_wallets_balance_in_usd (a fold accumulating
get_total_balance times value_in_usd) equals the sum of
Wallet.get_wallet_balance_in_usd over the wallets of the user: the two
USD-conversion code paths are equivalent. -/
theorem C9_usd_paths_equivalent (db : DB) (u : User) :
    User.get_total_wallets_balance_in_usd db u =
      ((db.wallets.filter (fun w => w.userId == u.id)).map
        (Wallet.get_wallet_balance_in_usd db)).sum := by
  simp [User.get_total_wallets_balance_in_usd, foldl_add_eq_sum]
  rfl

/-- Claim C10.  The legacy scalar initial_balance column of the User
model contributes nothing to User.get_total_wallets_balance_in_usd:
changing only that field leaves the returned USD total untouched (the
method reads the user only through its id). -/
theorem C10_legacy_initial_balance_ignored (db : DB) (u : User) (b : ℚ) :
    User.get_total_wallets_balance_in_usd db { u with initial_balance := b } =
      User.get_total_wallets_balance_in_usd db u := rfl

end BudgetApi
